import Mathlib

/-!
Shallow embedding of `packages/example/pages/guess-number.tsx`, the
"Guess Number" example page of the Phala JS SDK repository.

The page is React UI glue: event handlers build a typed contract request,
send it over the SDK's query/command channel and map the outcome to toast
notifications.  We embed the handlers as pure functions from the component
state and the outcomes of the external asynchronous calls (`getSigner`,
`signCertificate`, `phala.query`, `phala.command`, `createApi`,
`createPhala`) to the new state together with a trace of observable
effects (calls made and toasts shown).  The external libraries themselves
are out of scope, exactly as in the source file: their results enter the
model as parameters.
-/

namespace GuessNumberPage

/-! ## Hex helpers (`@polkadot/util`, `@phala/sdk`) -/

/-- `numberToHex(value, bitLength)` of `@polkadot/util`: the value in
hexadecimal, zero-padded on the left to `bitLength / 4` digits, with the
`0x` prefix. -/
def numberToHex (value bitLength : Nat) : String :=
  let h := String.mk (Nat.toDigits 16 value)
  "0x" ++ String.mk (List.replicate (bitLength / 4 - h.length) '0') ++ h

/-- `hexAddPrefix` of `@polkadot/util`: add `0x` unless already present.
The `startsWith '0x'` test of the library is written on the character
list. -/
def hexAddPrefix (s : String) : String :=
  if s.data.take 2 = ['0', 'x'] then s else "0x" ++ s

/-- A lower-case hexadecimal digit, as produced by `randomHex`. -/
def isHexDigit (c : Char) : Bool :=
  c.isDigit || (('a' ≤ c) && (c ≤ 'f'))

/-- The strings `randomHex 32` of `@phala/sdk` can return: 32 random bytes
as 64 lower-case hexadecimal characters, without a `0x` prefix.  The draw
itself is an input of the model. -/
def isRandomHex32 (s : String) : Prop :=
  s.length = 64 ∧ s.data.all isHexDigit = true

instance (s : String) : Decidable (isRandomHex32 s) := by
  unfold isRandomHex32; infer_instance

/-! ## JavaScript values the handlers build or read -/

/-- A JavaScript number as produced by `Number(string)`: either a numeric
value or `NaN`.  Only the conversions the page can trigger are modelled:
the empty string converts to `0`, a string of decimal digits to its value,
anything else to `NaN`. -/
inductive JsNum where
  | num (n : Nat)
  | nan
  deriving DecidableEq, Repr

/-- `Number(s)` for the strings the page's number input produces. -/
def jsNumber (s : String) : JsNum :=
  if s = "" then .num 0
  else if s.data.all Char.isDigit then .num (s.toNat?.getD 0)
  else .nan

/-- `${v}` interpolation of a possibly-undefined numeric field. -/
def jsShowOptNat : Option Nat → String
  | some n => toString n
  | none => "undefined"

/-! ## The declarative type schema passed to `createApi` -/

/-- One entry of the `types` record: a type alias, a struct with named
fields, or an `_enum` with named variants (each with an optional payload
type). -/
inductive TypeDef where
  | alias (target : String)
  | record (fields : List (String × String))
  | enum (variants : List (String × Option String))
  deriving DecidableEq, Repr

/-- The `types` object passed to `createApi` in the `GuessNumber` page,
entry by entry in source order. -/
def guessNumberTypes : List (String × TypeDef) :=
  [ ("AccountId", .alias "H256"),
    ("RandomNumber", .alias "u32"),
    ("ContractOwner", .record [("owner", "AccountId")]),
    ("Guess", .record [("guess_number", "RandomNumber")]),
    ("GuessResult", .enum [("TooLarge", none), ("ToSmall", none), ("Correct", none)]),
    ("GuessError", .enum [("OriginUnavailable", none), ("NotAuthorized", none)]),
    ("GuessNumberRequestData",
      .enum [("QueryOwner", none), ("Guess", some "Guess"), ("PeekRandomNumber", none)]),
    ("GuessNumberResponseData",
      .enum [("Owner", some "AccountId"), ("GuessResult", some "GuessResult"),
             ("RandomNumber", some "RandomNumber")]),
    ("GuessNumberRequest",
      .record [("head", "ContractQueryHead"), ("data", "GuessNumberRequestData")]),
    ("GuessNumberResponse",
      .record [("nonce", "[u8; 32]"), ("result", "Result<GuessNumberResponseData>")]),
    ("GuessNumberCommand", .enum [("NextRandom", none), ("SetOwner", some "ContractOwner")]) ]

/-- The `api` object returned by `createApi`: for this page its only
observable content is the registered type schema. -/
structure Api where
  types : List (String × TypeDef)
  deriving DecidableEq, Repr

/-- The Phala SDK instance returned by `createPhala`. Opaque to the page;
a tag distinguishes instances. -/
structure PhalaInstance where
  tag : Nat
  deriving DecidableEq, Repr

/-! ## Contract request and command literals -/

/-- `CONTRACT_ID` (line 27). -/
def CONTRACT_ID : Nat := 100

/-- The `head` object of a `GuessNumberRequest` literal. -/
structure ContractQueryHead where
  id : String
  nonce : String
  deriving DecidableEq, Repr

/-- The `data` object literal passed when creating a `GuessNumberRequest`:
`onGuess` passes `{guess: {guess_number: Number(number)}}` and `onReveal`
passes `{reveal: null}`. -/
inductive RequestData where
  | guess (guess_number : JsNum)
  | reveal
  deriving DecidableEq, Repr

/-- The `GuessNumberRequest` literal handed to `api.createType(...)` and
sent (hex-encoded) through `phala.query`.  The SCALE encoding itself is
delegated to `@polkadot/api`; the model keeps the literal. -/
structure GuessNumberRequest where
  head : ContractQueryHead
  data : RequestData
  deriving DecidableEq, Repr

/-- The `GuessNumberCommand` literal sent through `phala.command`:
`onReset` passes `{NextRandom: null}`. -/
inductive CommandLiteral where
  | nextRandom
  deriving DecidableEq, Repr

/-! ## Decoded responses and external-call outcomes -/

/-- The slice of the decoded JSON object the handlers read from a response
variant payload: `Object.keys(ok)[0]` (its first key, the camel-cased
variant name) and `ok.randomNumber` (present only for the `RandomNumber`
variant). -/
structure JsObj where
  firstKey : String
  randomNumber : Option Nat
  deriving DecidableEq, Repr

/-- The destructured `result` field of a decoded `GuessNumberResponse`:
the SCALE `Result<_>` type decodes to an object with exactly one of the
keys `ok` and `err` set. -/
inductive DecodedResult where
  | ok (payload : JsObj)
  | err (payload : JsObj)
  deriving DecidableEq, Repr

/-- Outcome of one `phala.query(...)` promise as the handler observes it:
either the promise rejects with an error message, or it resolves and the
response decodes to a `result` field. -/
inductive QueryOutcome where
  | rejected (message : String)
  | decoded (result : DecodedResult)
  deriving DecidableEq, Repr

/-- The browser-extension signer returned by `getSigner(account)`. Opaque;
a tag distinguishes signers. -/
structure Signer where
  tag : Nat
  deriving DecidableEq, Repr

/-- An injected account from the account atom. -/
structure Account where
  address : String
  deriving DecidableEq, Repr

/-- The certificate returned by `signCertificate`. Opaque; a tag
distinguishes certificates. -/
structure CertificateData where
  tag : Nat
  deriving DecidableEq, Repr

/-- Outcome of an awaited `getSigner(account)` call. -/
inductive SignerOutcome where
  | ok (signer : Signer)
  | fail (message : String)
  deriving DecidableEq, Repr

/-- Outcome of an awaited `signCertificate({api, address, signer})` call. -/
inductive SignCertOutcome where
  | ok (cert : CertificateData)
  | fail (message : String)
  deriving DecidableEq, Repr

/-- Outcome of the `phala.command({...})` promise: it resolves with an
unsubscribe function, or rejects with an error message. -/
inductive CommandOutcome where
  | resolved
  | rejected (message : String)
  deriving DecidableEq, Repr

/-! ## Component state and observable effects -/

/-- The `useState` cells of the `Game` component, plus the selected
account from the atom. -/
structure GameState where
  account : Option Account
  number : String
  certificateData : Option CertificateData
  signCertificateLoading : Bool
  guessLoading : Bool
  deriving DecidableEq, Repr

/-- A toast notification shown through `baseui/toast`'s `toaster`.  Keyed
toasts are the `autoHideDuration: 0` ones whose key the handler keeps to
update or clear them. -/
inductive ToastEffect where
  | positive (message : String)
  | negative (message : String)
  | info (message : String)
  | infoKeyed (key : Nat) (message : String)
  | updateToast (key : Nat) (message : String)
  | clearToast (key : Nat)
  deriving DecidableEq, Repr

/-- One observable effect of a handler, in program order: an external call
it makes or a toast it shows. -/
inductive Effect where
  | preventDefault
  | getSignerCall (account : Account)
  | signCertificateCall (api : Api) (address : String) (signer : Signer)
  | queryCall (request : GuessNumberRequest) (cert : CertificateData)
  | commandCall (contractId : Nat) (payload : CommandLiteral) (account : Account) (signer : Signer)
  | toast (t : ToastEffect)
  deriving DecidableEq, Repr

/-- One complete run of a handler: the state after all its `set*` calls
settled, the trace of effects, and — when an error escaped every `catch`
of the handler — the message of that unhandled rejection. -/
structure HandlerRun where
  state : GameState
  effects : List Effect
  uncaughtError : Option String
  deriving DecidableEq, Repr

/-- The queries a trace sends (request literal and certificate). -/
def queriesOf (effs : List Effect) : List (GuessNumberRequest × CertificateData) :=
  effs.filterMap fun e =>
    match e with
    | .queryCall req cert => some (req, cert)
    | _ => none

/-- The commands a trace sends. -/
def commandsOf (effs : List Effect) : List (Nat × CommandLiteral × Account × Signer) :=
  effs.filterMap fun e =>
    match e with
    | .commandCall cid payload account signer => some (cid, payload, account, signer)
    | _ => none

/-- The toasts a trace shows, in order. -/
def toastsOf (effs : List Effect) : List ToastEffect :=
  effs.filterMap fun e =>
    match e with
    | .toast t => some t
    | _ => none

/-! ## Handler models (lines 50–192 of the source) -/

/-- `onSignCertificate` (lines 50–68): with an account selected, set the
loading flag, await `getSigner(account)`, await
`signCertificate({api, address, signer})`, store the certificate and show
`'Certificate signed'`; any error of the `try` block is caught and shown
as a negative toast; the loading flag is reset on both paths.  With no
account, nothing happens. -/
def onSignCertificate (api : Api) (s : GameState)
    (signerO : SignerOutcome) (signO : SignCertOutcome) :
    HandlerRun :=
  match s.account with
  | none => ⟨s, [], none⟩
  | some account =>
    let s1 := { s with signCertificateLoading := true }
    match signerO with
    | .fail msg =>
        ⟨{ s1 with signCertificateLoading := false },
         [.getSignerCall account, .toast (.negative msg)], none⟩
    | .ok signer =>
        match signO with
        | .fail msg =>
            ⟨{ s1 with signCertificateLoading := false },
             [.getSignerCall account, .signCertificateCall api account.address signer,
              .toast (.negative msg)], none⟩
        | .ok cert =>
            ⟨{ s1 with certificateData := some cert, signCertificateLoading := false },
             [.getSignerCall account, .signCertificateCall api account.address signer,
              .toast (.positive "Certificate signed")], none⟩

/-- The `GuessNumberRequest` literal `onGuess` builds (lines 75–87):
contract id 100 as a 256-bit hex, a fresh `randomHex 32` draw with the
`0x` prefix added, and the `guess` variant carrying `Number(number)`. -/
def guessRequest (number nonceDraw : String) : GuessNumberRequest :=
  { head := { id := numberToHex CONTRACT_ID 256, nonce := hexAddPrefix nonceDraw },
    data := .guess (jsNumber number) }

/-- `onGuess` (lines 70–120): prevent the default form submission; with no
certificate return immediately.  Otherwise set the loading flag, encode
the request and send it through `phala.query`.  On a decoded `ok` show the
positive reset toast for the `correct` variant (clearing the input) or an
info toast naming the variant; a decoded `err` is thrown and, like a
rejection of the query promise, caught and shown as a negative toast; a
`finally` clause resets the loading flag. -/
def onGuess (api : Api) (s : GameState) (nonceDraw : String)
    (q : QueryOutcome) : HandlerRun :=
  match s.certificateData with
  | none => ⟨s, [.preventDefault], none⟩
  | some cert =>
    let req := guessRequest s.number nonceDraw
    let s1 := { s with guessLoading := true }
    let base : List Effect := [.preventDefault, .queryCall req cert]
    match q with
    | .rejected msg =>
        ⟨{ s1 with guessLoading := false },
         base ++ [.toast (.negative msg)], none⟩
    | .decoded (.ok payload) =>
        if payload.firstKey = "correct" then
          ⟨{ s1 with number := "", guessLoading := false },
           base ++ [.toast (.positive "Correct! Number has been reset")], none⟩
        else
          ⟨{ s1 with guessLoading := false },
           base ++ [.toast (.info payload.firstKey)], none⟩
    | .decoded (.err payload) =>
        ⟨{ s1 with guessLoading := false },
         base ++ [.toast (.negative payload.firstKey)], none⟩

/-- The `GuessNumberRequest` literal `onReveal` builds (lines 124–132):
same head, `{reveal: null}` as data. -/
def revealRequest (nonceDraw : String) : GuessNumberRequest :=
  { head := { id := numberToHex CONTRACT_ID 256, nonce := hexAddPrefix nonceDraw },
    data := .reveal }

/-- `onReveal` (lines 122–161): with no certificate return immediately.
Otherwise encode the request, show the keyed `'Cheating…'` toast and send
the query.  On a decoded `ok` update the toast with
`` `Current number is ${ok.randomNumber}` ``; a decoded `err` is thrown
and, like a rejection, caught: the pending toast is cleared and a negative
toast shows the message.  `toastKey` is the key `toaster.info` returned. -/
def onReveal (api : Api) (s : GameState) (nonceDraw : String) (toastKey : Nat)
    (q : QueryOutcome) : HandlerRun :=
  match s.certificateData with
  | none => ⟨s, [], none⟩
  | some cert =>
    let req := revealRequest nonceDraw
    let base : List Effect := [.toast (.infoKeyed toastKey "Cheating…"), .queryCall req cert]
    match q with
    | .rejected msg =>
        ⟨s, base ++ [.toast (.clearToast toastKey), .toast (.negative msg)], none⟩
    | .decoded (.ok payload) =>
        ⟨s, base ++ [.toast (.updateToast toastKey
            ("Current number is " ++ jsShowOptNat payload.randomNumber))], none⟩
    | .decoded (.err payload) =>
        ⟨s, base ++ [.toast (.clearToast toastKey), .toast (.negative payload.firstKey)], none⟩

/-- `onReset` (lines 163–192): with no account return immediately.
Otherwise show the keyed `'Resetting…'` toast and await
`getSigner(account)` — this await is outside any `try`/`catch`, so its
rejection escapes the handler unhandled.  Then submit the
`{NextRandom: null}` command through `phala.command` with the account and
signer; a rejection of that promise is caught: the pending toast is
cleared and a negative toast shows the message.  (The `onStatus` callback
and the stored unsubscribe function touch no component state.) -/
def onReset (api : Api) (s : GameState) (toastKey : Nat)
    (signerO : SignerOutcome) (c : CommandOutcome) : HandlerRun :=
  match s.account with
  | none => ⟨s, [], none⟩
  | some account =>
    let base : List Effect := [.toast (.infoKeyed toastKey "Resetting…"), .getSignerCall account]
    match signerO with
    | .fail msg => ⟨s, base, some msg⟩
    | .ok signer =>
        let sent : List Effect :=
          base ++ [.commandCall CONTRACT_ID .nextRandom account signer]
        match c with
        | .resolved => ⟨s, sent, none⟩
        | .rejected msg =>
            ⟨s, sent ++ [.toast (.clearToast toastKey), .toast (.negative msg)], none⟩

/-- The `useEffect` on `[account]` (lines 46–48): whenever the selected
account changes (`newAccount` being the new value, possibly none), the
effect resets `certificateData` to `undefined`. -/
def accountChangeEffect (s : GameState) (newAccount : Option Account) : GameState :=
  { s with account := newAccount, certificateData := none }

/-! ## The `Game` render (lines 194–255) and the `GuessNumber` page (258–326) -/

/-- The observable shape of one render of `Game`: the `ProgressSteps`
current step, and the disabled/loading props of the buttons. -/
structure GameView where
  currentStep : Nat
  signDisabled : Bool
  signLoading : Bool
  guessDisabled : Bool
  guessLoading : Bool
  deriving DecidableEq, Repr

/-- One render of `Game` from its state:
`current={certificateData ? 1 : 0}`, the sign button disabled without an
account, the guess button disabled on an empty input. -/
def gameRender (s : GameState) : GameView :=
  { currentStep := if s.certificateData.isSome then 1 else 0,
    signDisabled := s.account.isNone,
    signLoading := s.signCertificateLoading,
    guessDisabled := s.number = "",
    guessLoading := s.guessLoading }

/-- The `useState` cells of the `GuessNumber` page component. -/
structure PageState where
  api : Option Api
  phala : Option PhalaInstance
  deriving DecidableEq, Repr

/-- What the page renders (lines 310–325): the `Game` component once both
`api` and `phala` are set, the `'Initializing'` spinner otherwise. -/
inductive Rendered where
  | game (api : Api) (phala : PhalaInstance)
  | initializingSpinner
  deriving DecidableEq, Repr

/-- The page's render expression. -/
def renderPage (s : PageState) : Rendered :=
  match s.api, s.phala with
  | some api, some phala => .game api phala
  | some _, none => .initializingSpinner
  | none, some _ => .initializingSpinner
  | none, none => .initializingSpinner

/-- Outcome of the awaited `createApi({endpoint, types})` call. -/
inductive ApiOutcome where
  | ok (api : Api)
  | fail (message : String)
  deriving DecidableEq, Repr

/-- Outcome of the awaited `createPhala({api, baseURL})` call. -/
inductive PhalaOutcome where
  | ok (phala : PhalaInstance)
  | fail (message : String)
  deriving DecidableEq, Repr

/-- An observable effect of the page's initialization `useEffect`. -/
inductive PageEffect where
  | createApiCall (endpoint : String) (types : List (String × TypeDef))
  | createPhalaCall (api : Api) (baseURL : String)
  | toast (t : ToastEffect)
  deriving DecidableEq, Repr

/-- `baseURL` (line 26). -/
def baseURL : String := "/"

/-- The initialization `useEffect` of `GuessNumber` (lines 262–308):
call `createApi` with the `NEXT_PUBLIC_WS_ENDPOINT` environment value and
the declared type schema; on success store the api and call `createPhala`
with it, storing the instance on success; a rejection of either promise is
caught by the single `catch` and shown as a negative toast. -/
def pageInit (wsEndpoint : String) (s : PageState)
    (aO : ApiOutcome) (pO : Api → PhalaOutcome) : PageState × List PageEffect :=
  let call : PageEffect := .createApiCall wsEndpoint guessNumberTypes
  match aO with
  | .fail msg => (s, [call, .toast (.negative msg)])
  | .ok api =>
      match pO api with
      | .fail msg =>
          ({ s with api := some api },
           [call, .createPhalaCall api baseURL, .toast (.negative msg)])
      | .ok phala =>
          ({ s with api := some api, phala := some phala },
           [call, .createPhalaCall api baseURL])

/-! ## Shared lemmas and sample inputs -/

/-- A `randomHex 32` draw never already carries the `0x` prefix ('x' is
not a hexadecimal digit), so `hexAddPrefix` prepends it. -/
theorem hexAddPrefix_of_randomHex {d : String} (h : isRandomHex32 d) :
    hexAddPrefix d = "0x" ++ d := by
  unfold hexAddPrefix
  rw [if_neg]
  intro hx
  have hmem : 'x' ∈ d.data := by
    have hx2 : 'x' ∈ d.data.take 2 := by rw [hx]; simp
    exact List.mem_of_mem_take hx2
  have hall : isHexDigit 'x' = true := by
    have h2 := h.2
    rw [List.all_eq_true] at h2
    exact h2 _ hmem
  exact absurd hall (by decide)

/-- String concatenation cancels on the left. -/
theorem string_append_left_cancel {a b c : String} (h : a ++ b = a ++ c) :
    b = c := by
  apply String.ext
  have hd := congrArg String.data h
  rw [String.data_append, String.data_append] at hd
  exact List.append_cancel_left hd

def sampleAccount : Account := ⟨"0xAliceAddress"⟩

def sampleSigner : Signer := ⟨1⟩

def sampleCert : CertificateData := ⟨1⟩

def sampleApi : Api := ⟨guessNumberTypes⟩

def samplePhala : PhalaInstance := ⟨1⟩

def sampleDrawA : String := String.mk (List.replicate 64 'a')

def sampleDrawB : String := String.mk (List.replicate 64 'b')

/-- A state with an account selected and a certificate signed. -/
def sampleState : GameState :=
  { account := some sampleAccount, number := "42",
    certificateData := some sampleCert,
    signCertificateLoading := false, guessLoading := false }

/-- The initial state: no account, empty input, no certificate. -/
def emptyState : GameState :=
  { account := none, number := "", certificateData := none,
    signCertificateLoading := false, guessLoading := false }

/-! ## Claim theorems -/

/-- C1: while `certificateData` is defined, each `onGuess` submission
sends exactly one encrypted query through `phala.query`, carrying the
encoded `GuessNumberRequest`, and shows exactly one toast for the
outcome: the positive toast `Correct! Number has been reset` when the
decoded `ok` result is the `correct` variant, an info toast naming the
variant for any other `ok` result, and a negative toast with the error
message when the query rejects or the decoded result carries the `err`
variant. -/
theorem onGuess_one_query_one_outcome_toast
    (api : Api) (s : GameState) (cert : CertificateData) (nonceDraw : String)
    (q : QueryOutcome) (h : s.certificateData = some cert) :
    queriesOf (onGuess api s nonceDraw q).effects =
      [(guessRequest s.number nonceDraw, cert)] ∧
    toastsOf (onGuess api s nonceDraw q).effects =
      [match q with
       | .rejected msg => ToastEffect.negative msg
       | .decoded (.ok p) =>
           if p.firstKey = "correct" then
             ToastEffect.positive "Correct! Number has been reset"
           else ToastEffect.info p.firstKey
       | .decoded (.err p) => ToastEffect.negative p.firstKey] := by
  cases q with
  | rejected msg => simp [onGuess, h, queriesOf, toastsOf]
  | decoded r =>
    cases r with
    | ok p =>
      by_cases hp : p.firstKey = "correct" <;>
        simp [onGuess, h, queriesOf, toastsOf, hp]
    | err p => simp [onGuess, h, queriesOf, toastsOf]

/-- Witness for C1: the `correct` outcome at a concrete state. -/
theorem onGuess_one_query_one_outcome_toast_witness :
    queriesOf (onGuess sampleApi sampleState sampleDrawA
        (.decoded (.ok ⟨"correct", none⟩))).effects =
      [(guessRequest "42" sampleDrawA, sampleCert)] ∧
    toastsOf (onGuess sampleApi sampleState sampleDrawA
        (.decoded (.ok ⟨"correct", none⟩))).effects =
      [ToastEffect.positive "Correct! Number has been reset"] := by
  have h := onGuess_one_query_one_outcome_toast sampleApi sampleState sampleCert
    sampleDrawA (.decoded (.ok ⟨"correct", none⟩)) rfl
  simpa using h

/-- C2: each enumerated handler error — certificate-signing failure in
`onSignCertificate`, query rejection or a decoded `err` variant in
`onGuess` and `onReveal`, command failure in `onReset` — is caught inside
that handler (no unhandled rejection escapes) and surfaced as one
negative toast carrying the error message; the handler performs no retry
(at most one query or command is sent) and no other effect beyond the
toasts shown, which on the keyed-toast handlers include clearing the
pending toast. -/
theorem handler_errors_caught_locally
    (api : Api) (s sA : GameState) (account : Account) (cert : CertificateData)
    (signer : Signer) (signO : SignCertOutcome) (msg nonceDraw : String)
    (toastKey : Nat) (p : JsObj)
    (hC : s.certificateData = some cert) (hA : sA.account = some account) :
    ((onSignCertificate api sA (.fail msg) signO).uncaughtError = none ∧
     toastsOf (onSignCertificate api sA (.fail msg) signO).effects = [.negative msg] ∧
     queriesOf (onSignCertificate api sA (.fail msg) signO).effects = [] ∧
     commandsOf (onSignCertificate api sA (.fail msg) signO).effects = []) ∧
    ((onSignCertificate api sA (.ok signer) (.fail msg)).uncaughtError = none ∧
     toastsOf (onSignCertificate api sA (.ok signer) (.fail msg)).effects =
       [.negative msg]) ∧
    ((onGuess api s nonceDraw (.rejected msg)).uncaughtError = none ∧
     toastsOf (onGuess api s nonceDraw (.rejected msg)).effects = [.negative msg] ∧
     (queriesOf (onGuess api s nonceDraw (.rejected msg)).effects).length = 1) ∧
    ((onGuess api s nonceDraw (.decoded (.err p))).uncaughtError = none ∧
     toastsOf (onGuess api s nonceDraw (.decoded (.err p))).effects =
       [.negative p.firstKey] ∧
     (queriesOf (onGuess api s nonceDraw (.decoded (.err p))).effects).length = 1) ∧
    ((onReveal api s nonceDraw toastKey (.rejected msg)).uncaughtError = none ∧
     toastsOf (onReveal api s nonceDraw toastKey (.rejected msg)).effects =
       [.infoKeyed toastKey "Cheating…", .clearToast toastKey, .negative msg] ∧
     (queriesOf (onReveal api s nonceDraw toastKey (.rejected msg)).effects).length = 1) ∧
    ((onReveal api s nonceDraw toastKey (.decoded (.err p))).uncaughtError = none ∧
     toastsOf (onReveal api s nonceDraw toastKey (.decoded (.err p))).effects =
       [.infoKeyed toastKey "Cheating…", .clearToast toastKey, .negative p.firstKey] ∧
     (queriesOf (onReveal api s nonceDraw toastKey (.decoded (.err p))).effects).length = 1) ∧
    ((onReset api sA toastKey (.ok signer) (.rejected msg)).uncaughtError = none ∧
     toastsOf (onReset api sA toastKey (.ok signer) (.rejected msg)).effects =
       [.infoKeyed toastKey "Resetting…", .clearToast toastKey, .negative msg] ∧
     (commandsOf (onReset api sA toastKey (.ok signer) (.rejected msg)).effects).length = 1) := by
  refine ⟨?_, ?_, ?_, ?_, ?_, ?_, ?_⟩ <;>
    simp [onSignCertificate, onGuess, onReveal, onReset, hA, hC,
      queriesOf, toastsOf, commandsOf]

/-- Witness for C2 at concrete inputs. -/
theorem handler_errors_caught_locally_witness :
    ((onSignCertificate sampleApi sampleState (.fail "boom") (.ok sampleCert)).uncaughtError = none ∧
     toastsOf (onSignCertificate sampleApi sampleState (.fail "boom") (.ok sampleCert)).effects = [.negative "boom"] ∧
     queriesOf (onSignCertificate sampleApi sampleState (.fail "boom") (.ok sampleCert)).effects = [] ∧
     commandsOf (onSignCertificate sampleApi sampleState (.fail "boom") (.ok sampleCert)).effects = []) ∧
    ((onSignCertificate sampleApi sampleState (.ok sampleSigner) (.fail "boom")).uncaughtError = none ∧
     toastsOf (onSignCertificate sampleApi sampleState (.ok sampleSigner) (.fail "boom")).effects =
       [.negative "boom"]) ∧
    ((onGuess sampleApi sampleState sampleDrawA (.rejected "boom")).uncaughtError = none ∧
     toastsOf (onGuess sampleApi sampleState sampleDrawA (.rejected "boom")).effects = [.negative "boom"] ∧
     (queriesOf (onGuess sampleApi sampleState sampleDrawA (.rejected "boom")).effects).length = 1) ∧
    ((onGuess sampleApi sampleState sampleDrawA (.decoded (.err ⟨"notAuthorized", none⟩))).uncaughtError = none ∧
     toastsOf (onGuess sampleApi sampleState sampleDrawA (.decoded (.err ⟨"notAuthorized", none⟩))).effects =
       [.negative "notAuthorized"] ∧
     (queriesOf (onGuess sampleApi sampleState sampleDrawA (.decoded (.err ⟨"notAuthorized", none⟩))).effects).length = 1) ∧
    ((onReveal sampleApi sampleState sampleDrawA 7 (.rejected "boom")).uncaughtError = none ∧
     toastsOf (onReveal sampleApi sampleState sampleDrawA 7 (.rejected "boom")).effects =
       [.infoKeyed 7 "Cheating…", .clearToast 7, .negative "boom"] ∧
     (queriesOf (onReveal sampleApi sampleState sampleDrawA 7 (.rejected "boom")).effects).length = 1) ∧
    ((onReveal sampleApi sampleState sampleDrawA 7 (.decoded (.err ⟨"notAuthorized", none⟩))).uncaughtError = none ∧
     toastsOf (onReveal sampleApi sampleState sampleDrawA 7 (.decoded (.err ⟨"notAuthorized", none⟩))).effects =
       [.infoKeyed 7 "Cheating…", .clearToast 7, .negative "notAuthorized"] ∧
     (queriesOf (onReveal sampleApi sampleState sampleDrawA 7 (.decoded (.err ⟨"notAuthorized", none⟩))).effects).length = 1) ∧
    ((onReset sampleApi sampleState 7 (.ok sampleSigner) (.rejected "boom")).uncaughtError = none ∧
     toastsOf (onReset sampleApi sampleState 7 (.ok sampleSigner) (.rejected "boom")).effects =
       [.infoKeyed 7 "Resetting…", .clearToast 7, .negative "boom"] ∧
     (commandsOf (onReset sampleApi sampleState 7 (.ok sampleSigner) (.rejected "boom")).effects).length = 1) :=
  handler_errors_caught_locally sampleApi sampleState sampleState sampleAccount
    sampleCert sampleSigner (.ok sampleCert) "boom" sampleDrawA 7
    ⟨"notAuthorized", none⟩ rfl rfl

/-- C3: with an account selected, `onSignCertificate` obtains a signer
for that account, calls `signCertificate` with the api, the account's
address and that signer, stores the returned certificate in
`certificateData` and shows the positive toast `Certificate signed`; if
either step fails, `certificateData` is left unchanged and a negative
toast with the error message is shown instead. -/
theorem onSignCertificate_success_and_failure
    (api : Api) (s : GameState) (account : Account) (signer : Signer)
    (cert : CertificateData) (signO : SignCertOutcome) (msg : String)
    (hA : s.account = some account) :
    ((onSignCertificate api s (.ok signer) (.ok cert)).effects =
       [.getSignerCall account,
        .signCertificateCall api account.address signer,
        .toast (.positive "Certificate signed")] ∧
     (onSignCertificate api s (.ok signer) (.ok cert)).state.certificateData = some cert) ∧
    ((onSignCertificate api s (.fail msg) signO).state.certificateData =
       s.certificateData ∧
     toastsOf (onSignCertificate api s (.fail msg) signO).effects = [.negative msg]) ∧
    ((onSignCertificate api s (.ok signer) (.fail msg)).state.certificateData =
       s.certificateData ∧
     toastsOf (onSignCertificate api s (.ok signer) (.fail msg)).effects =
       [.negative msg]) := by
  refine ⟨?_, ?_, ?_⟩ <;> simp [onSignCertificate, hA, toastsOf]

/-- Witness for C3 at concrete inputs. -/
theorem onSignCertificate_success_and_failure_witness :
    ((onSignCertificate sampleApi sampleState (.ok sampleSigner) (.ok sampleCert)).effects =
       [.getSignerCall sampleAccount,
        .signCertificateCall sampleApi sampleAccount.address sampleSigner,
        .toast (.positive "Certificate signed")] ∧
     (onSignCertificate sampleApi sampleState (.ok sampleSigner) (.ok sampleCert)).state.certificateData = some sampleCert) ∧
    ((onSignCertificate sampleApi sampleState (.fail "no signer") (.ok sampleCert)).state.certificateData =
       sampleState.certificateData ∧
     toastsOf (onSignCertificate sampleApi sampleState (.fail "no signer") (.ok sampleCert)).effects =
       [.negative "no signer"]) ∧
    ((onSignCertificate sampleApi sampleState (.ok sampleSigner) (.fail "no signer")).state.certificateData =
       sampleState.certificateData ∧
     toastsOf (onSignCertificate sampleApi sampleState (.ok sampleSigner) (.fail "no signer")).effects =
       [.negative "no signer"]) :=
  onSignCertificate_success_and_failure sampleApi sampleState sampleAccount
    sampleSigner sampleCert (.ok sampleCert) "no signer" rfl

/-- C4: every guess request is encoded with `head.id` the 256-bit hex
encoding of contract id 100, `head.nonce` the fresh 32-byte random hex
draw with the `0x` prefix (distinct draws give distinct nonces), and
`data` the `guess` variant carrying `Number(number)` as `guess_number`;
the schema passed to `createApi` declares `GuessResult` with exactly the
variants `TooLarge`, `ToSmall`, `Correct`, and `GuessNumberCommand` with
exactly `NextRandom`, `SetOwner`. -/
theorem guess_request_encoding_and_schema
    (api : Api) (s : GameState) (cert : CertificateData) (d1 d2 : String)
    (q : QueryOutcome) (hC : s.certificateData = some cert)
    (h1 : isRandomHex32 d1) (h2 : isRandomHex32 d2) (hne : d1 ≠ d2) :
    queriesOf (onGuess api s d1 q).effects =
      [({ head := { id := numberToHex CONTRACT_ID 256, nonce := "0x" ++ d1 },
          data := .guess (jsNumber s.number) }, cert)] ∧
    numberToHex CONTRACT_ID 256 =
      "0x0000000000000000000000000000000000000000000000000000000000000064" ∧
    (guessRequest s.number d1).head.nonce ≠ (guessRequest s.number d2).head.nonce ∧
    guessNumberTypes.lookup "GuessResult" =
      some (.enum [("TooLarge", none), ("ToSmall", none), ("Correct", none)]) ∧
    guessNumberTypes.lookup "GuessNumberCommand" =
      some (.enum [("NextRandom", none), ("SetOwner", some "ContractOwner")]) := by
  refine ⟨?_, by rfl, ?_, by rfl, by rfl⟩
  · cases q with
    | rejected msg =>
        simp [onGuess, hC, queriesOf, guessRequest, hexAddPrefix_of_randomHex h1]
    | decoded r =>
      cases r with
      | ok p =>
        by_cases hp : p.firstKey = "correct" <;>
          simp [onGuess, hC, queriesOf, guessRequest, hexAddPrefix_of_randomHex h1, hp]
      | err p =>
        simp [onGuess, hC, queriesOf, guessRequest, hexAddPrefix_of_randomHex h1]
  · simp only [guessRequest, hexAddPrefix_of_randomHex h1, hexAddPrefix_of_randomHex h2]
    intro hEq
    exact hne (string_append_left_cancel hEq)

/-- Witness for C4 at two concrete distinct draws. -/
theorem guess_request_encoding_and_schema_witness :
    queriesOf (onGuess sampleApi sampleState sampleDrawA (.rejected "e")).effects =
      [({ head := { id := numberToHex CONTRACT_ID 256, nonce := "0x" ++ sampleDrawA },
          data := .guess (jsNumber "42") }, sampleCert)] ∧
    numberToHex CONTRACT_ID 256 =
      "0x0000000000000000000000000000000000000000000000000000000000000064" ∧
    (guessRequest "42" sampleDrawA).head.nonce ≠ (guessRequest "42" sampleDrawB).head.nonce ∧
    guessNumberTypes.lookup "GuessResult" =
      some (.enum [("TooLarge", none), ("ToSmall", none), ("Correct", none)]) ∧
    guessNumberTypes.lookup "GuessNumberCommand" =
      some (.enum [("NextRandom", none), ("SetOwner", some "ContractOwner")]) :=
  guess_request_encoding_and_schema sampleApi sampleState sampleCert
    sampleDrawA sampleDrawB (.rejected "e") rfl (by decide) (by decide) (by decide)

/-- C5: `onGuess` and `onReveal` go only through the read-only encrypted
query channel `phala.query` — they submit no command — while `onReset`
sends no query and submits exactly one `phala.command` transaction, the
`NextRandom` command for contract 100, signed by the selected account's
signer. -/
theorem query_channel_vs_command_channel
    (api : Api) (s sA : GameState) (cert : CertificateData) (account : Account)
    (signer : Signer) (signerO : SignerOutcome) (d : String) (toastKey : Nat)
    (q : QueryOutcome) (c : CommandOutcome)
    (hC : s.certificateData = some cert) (hA : sA.account = some account) :
    (commandsOf (onGuess api s d q).effects = [] ∧
     (queriesOf (onGuess api s d q).effects).length = 1) ∧
    (commandsOf (onReveal api s d toastKey q).effects = [] ∧
     (queriesOf (onReveal api s d toastKey q).effects).length = 1) ∧
    queriesOf (onReset api sA toastKey signerO c).effects = [] ∧
    commandsOf (onReset api sA toastKey (.ok signer) c).effects =
      [(CONTRACT_ID, .nextRandom, account, signer)] := by
  refine ⟨⟨?_, ?_⟩, ⟨?_, ?_⟩, ?_, ?_⟩ <;>
  · first
    | (cases q with
       | rejected msg => simp [onGuess, onReveal, hC, queriesOf, commandsOf]
       | decoded r =>
         cases r with
         | ok p =>
           by_cases hp : p.firstKey = "correct" <;>
             simp [onGuess, onReveal, hC, queriesOf, commandsOf, hp]
         | err p => simp [onGuess, onReveal, hC, queriesOf, commandsOf])
    | (cases signerO <;> cases c <;> simp [onReset, hA, queriesOf, commandsOf])

/-- Witness for C5 at concrete inputs. -/
theorem query_channel_vs_command_channel_witness :
    (commandsOf (onGuess sampleApi sampleState sampleDrawA (.rejected "e")).effects = [] ∧
     (queriesOf (onGuess sampleApi sampleState sampleDrawA (.rejected "e")).effects).length = 1) ∧
    (commandsOf (onReveal sampleApi sampleState sampleDrawA 7 (.rejected "e")).effects = [] ∧
     (queriesOf (onReveal sampleApi sampleState sampleDrawA 7 (.rejected "e")).effects).length = 1) ∧
    queriesOf (onReset sampleApi sampleState 7 (.ok sampleSigner) .resolved).effects = [] ∧
    commandsOf (onReset sampleApi sampleState 7 (.ok sampleSigner) .resolved).effects =
      [(CONTRACT_ID, .nextRandom, sampleAccount, sampleSigner)] :=
  query_channel_vs_command_channel sampleApi sampleState sampleState sampleCert
    sampleAccount sampleSigner (.ok sampleSigner) sampleDrawA 7
    (.rejected "e") .resolved rfl rfl

/-- The page state before the initialization effect ran. -/
def initialPageState : PageState := ⟨none, none⟩

/-- A constant `createPhala` outcome, ignoring which api it is given. -/
def constPhalaOutcome (p : PhalaOutcome) : Api → PhalaOutcome := fun _ => p

/-- C6: the page calls `createApi` with the `NEXT_PUBLIC_WS_ENDPOINT`
endpoint and the declared schema, then `createPhala` from the resulting
api; until both `api` and `phala` are set the page renders the
`Initializing` spinner and never the `Game` component, and if either
initialization step rejects a negative toast with the message is shown
and the page stays on the spinner. -/
theorem page_init_connection_and_render
    (wsEndpoint msg msg2 : String) (api : Api) (phala : PhalaInstance)
    (pO : Api → PhalaOutcome) :
    pageInit wsEndpoint initialPageState (.ok api) (constPhalaOutcome (.ok phala)) =
      (⟨some api, some phala⟩,
       [.createApiCall wsEndpoint guessNumberTypes, .createPhalaCall api baseURL]) ∧
    renderPage ⟨none, none⟩ = .initializingSpinner ∧
    renderPage ⟨some api, none⟩ = .initializingSpinner ∧
    renderPage ⟨none, some phala⟩ = .initializingSpinner ∧
    renderPage ⟨some api, some phala⟩ = .game api phala ∧
    ((pageInit wsEndpoint initialPageState (.fail msg) pO).1 = initialPageState ∧
     (pageInit wsEndpoint initialPageState (.fail msg) pO).2 =
       [.createApiCall wsEndpoint guessNumberTypes, .toast (.negative msg)] ∧
     renderPage (pageInit wsEndpoint initialPageState (.fail msg) pO).1 =
       .initializingSpinner) ∧
    ((pageInit wsEndpoint initialPageState (.ok api) (constPhalaOutcome (.fail msg2))).1 =
       ⟨some api, none⟩ ∧
     (pageInit wsEndpoint initialPageState (.ok api) (constPhalaOutcome (.fail msg2))).2 =
       [.createApiCall wsEndpoint guessNumberTypes, .createPhalaCall api baseURL,
        .toast (.negative msg2)] ∧
     renderPage (pageInit wsEndpoint initialPageState (.ok api)
         (constPhalaOutcome (.fail msg2))).1 = .initializingSpinner) := by
  refine ⟨?_, rfl, rfl, rfl, rfl, ⟨?_, ?_, ?_⟩, ⟨?_, ?_, ?_⟩⟩ <;>
    simp [pageInit, constPhalaOutcome, initialPageState, renderPage]

/-- C7: in every render of `Game`, the `ProgressSteps` current step is 1
exactly when `certificateData` is defined and 0 otherwise: the step shown
is determined solely by whether a certificate has been signed. -/
theorem progress_step_from_certificate (s : GameState) :
    ((gameRender s).currentStep = 1 ↔ s.certificateData ≠ none) ∧
    ((gameRender s).currentStep = 0 ↔ s.certificateData = none) := by
  cases h : s.certificateData <;> simp [gameRender, h]

/-- C8: the effect watching the selected account resets `certificateData`
to `undefined` on every account change (including to none), and on the
resulting state `onGuess` and `onReveal` send no query, so a certificate
signed for one account is never used after the account has changed. -/
theorem account_change_clears_certificate
    (s : GameState) (newAccount : Option Account) (api : Api) (d : String)
    (toastKey : Nat) (q : QueryOutcome) :
    (accountChangeEffect s newAccount).certificateData = none ∧
    queriesOf (onGuess api (accountChangeEffect s newAccount) d q).effects = [] ∧
    queriesOf (onReveal api (accountChangeEffect s newAccount) d toastKey q).effects = [] := by
  refine ⟨rfl, ?_, ?_⟩ <;> simp [onGuess, onReveal, accountChangeEffect, queriesOf]

/-- C9: with `certificateData` undefined, `onGuess` sends no query and
changes no component state beyond preventing the default form submission,
and `onReveal` does nothing at all; likewise `onSignCertificate` and
`onReset` do nothing when no account is selected. -/
theorem handlers_noop_without_cert_or_account
    (api : Api) (s sN : GameState) (d : String) (toastKey : Nat)
    (q : QueryOutcome) (signerO : SignerOutcome) (signO : SignCertOutcome)
    (c : CommandOutcome)
    (hC : s.certificateData = none) (hA : sN.account = none) :
    onGuess api s d q = ⟨s, [.preventDefault], none⟩ ∧
    onReveal api s d toastKey q = ⟨s, [], none⟩ ∧
    onSignCertificate api sN signerO signO = ⟨sN, [], none⟩ ∧
    onReset api sN toastKey signerO c = ⟨sN, [], none⟩ := by
  refine ⟨?_, ?_, ?_, ?_⟩ <;>
    simp [onGuess, onReveal, onSignCertificate, onReset, hC, hA]

/-- Witness for C9 at a concrete state with no certificate and no
account. -/
theorem handlers_noop_without_cert_or_account_witness :
    onGuess sampleApi emptyState sampleDrawA (.rejected "e") =
      ⟨emptyState, [.preventDefault], none⟩ ∧
    onReveal sampleApi emptyState sampleDrawA 7 (.rejected "e") =
      ⟨emptyState, [], none⟩ ∧
    onSignCertificate sampleApi emptyState (.ok sampleSigner) (.ok sampleCert) =
      ⟨emptyState, [], none⟩ ∧
    onReset sampleApi emptyState 7 (.ok sampleSigner) .resolved =
      ⟨emptyState, [], none⟩ :=
  handlers_noop_without_cert_or_account sampleApi emptyState emptyState
    sampleDrawA 7 (.rejected "e") (.ok sampleSigner) (.ok sampleCert)
    .resolved rfl rfl

/-- C10: every guess attempt `onGuess` starts (a certificate being
present) ends with `guessLoading` back at `false`, whether the query
succeeded, decoded to the `err` variant, or rejected; symmetrically
`onSignCertificate` (an account being selected) ends with
`signCertificateLoading` back at `false` on both the success and the
failure path. -/
theorem loading_flags_reset
    (api : Api) (s sA : GameState) (cert : CertificateData) (account : Account)
    (d : String) (q : QueryOutcome) (signerO : SignerOutcome)
    (signO : SignCertOutcome)
    (hC : s.certificateData = some cert) (hA : sA.account = some account) :
    (onGuess api s d q).state.guessLoading = false ∧
    (onSignCertificate api sA signerO signO).state.signCertificateLoading = false := by
  constructor
  · cases q with
    | rejected msg => simp [onGuess, hC]
    | decoded r =>
      cases r with
      | ok p => by_cases hp : p.firstKey = "correct" <;> simp [onGuess, hC, hp]
      | err p => simp [onGuess, hC]
  · cases signerO with
    | fail msg => simp [onSignCertificate, hA]
    | ok signer => cases signO <;> simp [onSignCertificate, hA]

/-- Witness for C10 at concrete inputs. -/
theorem loading_flags_reset_witness :
    (onGuess sampleApi sampleState sampleDrawA (.rejected "e")).state.guessLoading = false ∧
    (onSignCertificate sampleApi sampleState (.ok sampleSigner)
        (.ok sampleCert)).state.signCertificateLoading = false :=
  loading_flags_reset sampleApi sampleState sampleState sampleCert sampleAccount
    sampleDrawA (.rejected "e") (.ok sampleSigner) (.ok sampleCert) rfl rfl

end GuessNumberPage
